import Mathlib

/-!
Verification of the motion-detection core of rpi_motion_detection.

The definitions below are a shallow embedding of src/motion_detector.py
(class MotionDetector) and src/service/google_drive_service.py
(class GoogleDriveService).  Machine 8-bit pixel arithmetic is embedded as
Nat arithmetic with explicit reductions mod 256; wall-clock instants are
rationals (seconds); the mutable fields of the MotionDetector object become
an explicit state record threaded through a step function; calls into the
camera, the encoder output and the Google Drive client become an explicit
list of emitted commands; a Python exception propagating out of a call is
an explicit `Option PyExc` component of the result.

Within one loop iteration the code reads datetime.datetime.now() several
times; those reads are nanoseconds apart and the iteration is embedded as
happening at a single instant `now`.
-/

/-- Python exceptions that the embedded code can raise. -/
inductive PyExc where
  | httpError : PyExc
  | attributeError : PyExc
deriving DecidableEq

/-- Outcome of the Google Drive create/execute call inside
`GoogleDriveService.upload_video` (src/service/google_drive_service.py,
lines 113-120): either the HTTP request succeeds and yields a file id, or
the client raises an HttpError. -/
inductive UploadResult where
  | ok (fileId : String) : UploadResult
  | httpError (msg : String) : UploadResult
deriving DecidableEq

/-- Embedding of `GoogleDriveService.upload_video`
(src/service/google_drive_service.py, lines 104-126).  The try-block
either succeeds (binding `file` to the created file) or raises HttpError,
which the except-clause catches, prints, and answers by setting
`file = None`.  The method then unconditionally evaluates
`file.get("id")`: on the success path this returns the id, but on the
caught-error path `file` is `None` and the attribute access raises
AttributeError, which propagates to the caller. -/
def upload_video (res : UploadResult) : Except PyExc String :=
  let file : Option String :=
    match res with
    | UploadResult.ok fileId => some fileId
    | UploadResult.httpError _ => none
  match file with
  | some fileId => Except.ok fileId
  | none => Except.error PyExc.attributeError

/-- A camera frame: the flat buffer of 8-bit luminance samples, as produced
by `picam2.capture_buffer(...)[:w*h]` (src/motion_detector.py, lines
128-129).  Pixel values are unsigned 8-bit, i.e. below 256. -/
abbrev Frame := List Nat

/-- Embedding of `np.subtract(current_frame, previous_frame)` on one pixel
pair.  Both operands are numpy uint8, so the subtraction is performed
modulo 256 (for c, p < 256 the value (c + 256 - p) % 256 is exactly the
wrapped difference). -/
def pxSubtract (c p : Nat) : Nat := (c + 256 - p) % 256

/-- Embedding of `np.square` on one uint8 sample: the product is again
taken in uint8, i.e. reduced mod 256. -/
def pxSquare (d : Nat) : Nat := d * d % 256

/-- Embedding of line 131 of src/motion_detector.py:
`mse = np.square(np.subtract(current_frame, previous_frame)).mean()` -
the mean (in float, embedded as an exact rational) of the uint8-wrapped
squared pixel differences. -/
def mse (cur prev : Frame) : ℚ :=
  ((List.zipWith (fun c p => pxSquare (pxSubtract c p)) cur prev).sum : ℚ) /
    ((min cur.length prev.length : Nat) : ℚ)

/-- The motion score as the specification words describe it: the exact
mathematical mean over all pixel positions of the squared difference of
corresponding samples, computed without any wraparound.  Stated from the
spec for comparison against `mse`, which is the embedding of the code. -/
def mseExact (cur prev : Frame) : ℚ :=
  (((List.zipWith (fun (c p : ℕ) => ((c : ℤ) - (p : ℤ)) ^ 2) cur prev).sum : ℤ) : ℚ) /
    ((min cur.length prev.length : Nat) : ℚ)

/-- The configuration surface of the core loop, from the command line
arguments consumed by `MotionDetector.__init__`
(src/motion_detector.py, lines 94-105). -/
structure Config where
  minPixelDiff : ℚ
  maxRecordingLengthSeconds : ℤ
  recordingDir : String
  driveUpload : Bool
  deleteLocalRecordingsAfterUpload : Bool
  deleteRecordingsAfterSeconds : ℤ
deriving DecidableEq

/-- The mutable session fields of the MotionDetector object
(src/motion_detector.py, lines 85-87), plus the target path the circular
output was last told to write to (`self.__encoder.output.fileoutput`,
line 159). -/
structure DetectorState where
  encoding : Bool
  startTimeOfLastRecording : Option ℚ
  timeOfLastMotionDetection : Option ℚ
  sinkPath : Option String
deriving DecidableEq

/-- The state right after `MotionDetector.__init__`
(src/motion_detector.py, lines 83-87). -/
def initialState : DetectorState :=
  { encoding := false
    startTimeOfLastRecording := none
    timeOfLastMotionDetection := none
    sinkPath := none }

/-- Commands the loop issues to its collaborators (encoder output, Google
Drive service, local file system), in program order. -/
inductive Effect where
  | beginSink (path : String) : Effect
  | endSink : Effect
  | handoff (path name : String) : Effect
  | uploadCall (path name : String) : Effect
  | deleteLocal (path : String) : Effect
  | pruneRemote (cutoff : ℚ) : Effect
deriving DecidableEq

/-- Recognizer for the upload hand-off command (the call of
`self.__upload_file(...)` at line 167 of src/motion_detector.py). -/
def isHandoff : Effect → Bool
  | Effect.handoff _ _ => true
  | _ => false

/-- Recognizer for the remote retention pruning command. -/
def isPruneRemote : Effect → Bool
  | Effect.pruneRemote _ => true
  | _ => false

/-- Recognizer for the local file deletion command. -/
def isDeleteLocal : Effect → Bool
  | Effect.deleteLocal _ => true
  | _ => false

/-- Rendering of a timestamp as text, standing for
`datetime.datetime.isoformat()` applied to the recording start time
(src/motion_detector.py, line 172).  The embedding only relies on this
being a deterministic function of the timestamp. -/
def isoTime (t : ℚ) : String :=
  toString t.num ++ ("p") ++ toString t.den

/-- Embedding of `MotionDetector.__get_recording_file_path`
(src/motion_detector.py, lines 171-172):
recording_dir + start timestamp in ISO format + ".h264".  The Python code
would raise on a missing start timestamp; callers only invoke it while the
start timestamp is set, and the embedding totalizes it with a default. -/
def get_recording_file_path (cfg : Config) (s : DetectorState) : String :=
  cfg.recordingDir ++ isoTime (s.startTimeOfLastRecording.getD 0) ++ (".h264")

/-- The second component of `os.path.split`: everything after the last
path separator (src/motion_detector.py, line 166). -/
def baseName (p : String) : String :=
  (p.splitOn ("/")).getLastD p

/-- Embedding of `MotionDetector.__delete_recording`
(src/motion_detector.py, lines 205-212): removes the local file only when
the delete-local flag is set. -/
def delete_recording (cfg : Config) (filePath : String) : List Effect :=
  if cfg.deleteLocalRecordingsAfterUpload = true then [Effect.deleteLocal filePath] else []

/-- Embedding of `MotionDetector.__delete_old_online_recordings`
(src/motion_detector.py, lines 214-222): prunes remote recordings older
than now minus the retention seconds, only when that setting is positive. -/
def delete_old_online_recordings (cfg : Config) (now : ℚ) : List Effect :=
  if 0 < cfg.deleteRecordingsAfterSeconds then
    [Effect.pruneRemote (now - (cfg.deleteRecordingsAfterSeconds : ℚ))]
  else []

/-- Embedding of `MotionDetector.__upload_file`
(src/motion_detector.py, lines 224-234).  When no Google Drive service is
configured the body is skipped entirely.  Otherwise `upload_video` is
called first; if it raises, the exception propagates and neither the local
deletion nor the remote pruning runs; if it returns, local deletion and
remote pruning follow, each guarded by its own configuration flag. -/
def upload_file (cfg : Config) (now : ℚ) (up : UploadResult) (filePath fileName : String) :
    List Effect × Option PyExc :=
  if cfg.driveUpload = true then
    match upload_video up with
    | Except.error e => ([Effect.uploadCall filePath fileName], some e)
    | Except.ok _ =>
        (Effect.uploadCall filePath fileName ::
          (delete_recording cfg filePath ++ delete_old_online_recordings cfg now), none)
  else ([], none)

/-- Embedding of `MotionDetector.__is_max_recording_length_exceeded`
(src/motion_detector.py, lines 148-152). -/
def is_max_recording_length_exceeded (cfg : Config) (now : ℚ) (s : DetectorState) : Bool :=
  decide (0 < cfg.maxRecordingLengthSeconds) &&
    (match s.startTimeOfLastRecording with
     | some st => decide ((cfg.maxRecordingLengthSeconds : ℚ) ≤ now - st)
     | none => false)

/-- The idle timeout constant `__MAX_TIME_SINCE_LAST_MOTION_DETECTION_SECONDS`
(src/motion_detector.py, line 76). -/
def maxTimeSinceLastMotionSeconds : ℚ := 5

/-- Embedding of
`MotionDetector.__is_max_time_since_last_motion_detection_exceeded`
(src/motion_detector.py, lines 154-156). -/
def is_max_time_since_last_motion_detection_exceeded (now : ℚ) (s : DetectorState) : Bool :=
  s.encoding &&
    (match s.timeOfLastMotionDetection with
     | some t => decide (maxTimeSinceLastMotionSeconds < now - t)
     | none => false)

/-- Embedding of `MotionDetector.__start_recording`
(src/motion_detector.py, lines 158-161): point the circular output at the
session file path and start it. -/
def start_recording (cfg : Config) (s : DetectorState) : DetectorState × List Effect :=
  ({ s with sinkPath := some (get_recording_file_path cfg s), encoding := true },
   [Effect.beginSink (get_recording_file_path cfg s)])

/-- Embedding of `MotionDetector.__write_recording_to_file`
(src/motion_detector.py, lines 163-169): stop the output, hand the
finished file to `__upload_file`, then clear the session fields.  If the
hand-off raises, the two clearing assignments are never reached and the
exception propagates. -/
def write_recording_to_file (cfg : Config) (now : ℚ) (up : UploadResult) (s : DetectorState) :
    DetectorState × List Effect × Option PyExc :=
  let path := get_recording_file_path cfg s
  let r := upload_file cfg now up path (baseName path)
  ((if r.2 = none then { s with encoding := false, startTimeOfLastRecording := none } else s),
   Effect.endSink :: Effect.handoff path (baseName path) :: r.1,
   r.2)

/-- Embedding of the branch structure of one iteration of
`MotionDetector.__loop` once a previous frame exists
(src/motion_detector.py, lines 130-145), with the already-computed motion
score `d`:

if mse above threshold and max length not exceeded: start a session if
idle, then refresh the last-motion timestamp; elif max length exceeded:
finalize; else if the idle timeout is exceeded: finalize; else nothing. -/
def stepFromDiff (cfg : Config) (now : ℚ) (up : UploadResult) (d : ℚ) (s : DetectorState) :
    DetectorState × List Effect × Option PyExc :=
  if cfg.minPixelDiff < d ∧ is_max_recording_length_exceeded cfg now s = false then
    if s.encoding = false then
      let r := start_recording cfg { s with startTimeOfLastRecording := some now }
      ({ r.1 with timeOfLastMotionDetection := some now }, r.2, none)
    else
      ({ s with timeOfLastMotionDetection := some now }, [], none)
  else if is_max_recording_length_exceeded cfg now s = true then
    write_recording_to_file cfg now up s
  else if is_max_time_since_last_motion_detection_exceeded now s = true then
    write_recording_to_file cfg now up s
  else (s, [], none)

/-- The loop-local state of `MotionDetector.__loop`: the detector fields
plus the `previous_frame` local variable (src/motion_detector.py,
line 125). -/
structure LoopState where
  det : DetectorState
  previousFrame : Option Frame
deriving DecidableEq

/-- One full iteration of the while-loop of `MotionDetector.__loop`
(src/motion_detector.py, lines 127-146): on the very first frame no
comparison happens and the frame is only stored; afterwards the branch
body runs on the mean squared difference, and - only if no exception
escaped - `previous_frame = current_frame` at line 146 is reached. -/
def loopIteration (cfg : Config) (now : ℚ) (up : UploadResult) (cur : Frame) (ls : LoopState) :
    LoopState × List Effect × Option PyExc :=
  match ls.previousFrame with
  | none => ({ det := ls.det, previousFrame := some cur }, [], none)
  | some prev =>
      let r := stepFromDiff cfg now up (mse cur prev) ls.det
      match r.2.2 with
      | some e => ({ det := r.1, previousFrame := ls.previousFrame }, r.2.1, some e)
      | none => ({ det := r.1, previousFrame := some cur }, r.2.1, none)

/-- The detector states the loop can be in at the top of an iteration:
the freshly initialized state, and every state produced by a completed
(non-raising) iteration body. -/
inductive Reachable (cfg : Config) : DetectorState → Prop where
  | init : Reachable cfg initialState
  | step (s : DetectorState) (now : ℚ) (up : UploadResult) (d : ℚ)
      (hs : Reachable cfg s)
      (hok : (stepFromDiff cfg now up d s).2.2 = none) :
      Reachable cfg (stepFromDiff cfg now up d s).1

/-- The session invariant of the detector: the encoding flag is set
exactly when the start timestamp is set, and while a session is active the
circular output is pointed at the path derived from the session start. -/
def DetectorInv (cfg : Config) (s : DetectorState) : Prop :=
  s.encoding = s.startTimeOfLastRecording.isSome ∧
  ∀ st : ℚ, s.startTimeOfLastRecording = some st →
    s.sinkPath = some (cfg.recordingDir ++ isoTime st ++ (".h264"))

/-- A remote recording as listed by the Drive client in
`GoogleDriveService.delete_all_videos_older_than`: its file id together
with the creation date `datetime.datetime.fromisoformat(name[0:-5])`
parsed from its name (src/service/google_drive_service.py, line 98). -/
structure RemoteFile where
  fileId : String
  creation : ℚ
deriving DecidableEq

/-- Embedding of the deletion loop of
`GoogleDriveService.delete_all_videos_older_than`
(src/service/google_drive_service.py, lines 97-102).  `deleteFails` tells
which Drive delete calls raise an HttpError.  The result is the list of
file ids actually deleted, in listing order, together with the exception
that escaped the loop, if any.  The loop body has no exception handler, so
the first failing delete aborts the whole loop. -/
def delete_all_videos_older_than (deleteBeforeDate : ℚ) (files : List RemoteFile)
    (deleteFails : String → Bool) : List String × Option PyExc :=
  match files with
  | [] => ([], none)
  | f :: rest =>
      if f.creation ≤ deleteBeforeDate then
        if deleteFails f.fileId then ([], some PyExc.httpError)
        else
          let r := delete_all_videos_older_than deleteBeforeDate rest deleteFails
          (f.fileId :: r.1, r.2)
      else delete_all_videos_older_than deleteBeforeDate rest deleteFails

/-- A configuration with every optional collaborator turned off, used to
instantiate universally quantified statements. -/
def cfgOff : Config :=
  { minPixelDiff := 1
    maxRecordingLengthSeconds := 0
    recordingDir := "r/"
    driveUpload := false
    deleteLocalRecordingsAfterUpload := false
    deleteRecordingsAfterSeconds := 0 }

/-- A configuration like `cfgOff` but with a one second cap on the
recording length. -/
def cfgCap : Config :=
  { minPixelDiff := 1
    maxRecordingLengthSeconds := 1
    recordingDir := "r/"
    driveUpload := false
    deleteLocalRecordingsAfterUpload := false
    deleteRecordingsAfterSeconds := 0 }

/-- A configuration with the Google Drive collaborator and both cleanup
options enabled and a one second recording cap. -/
def cfgDrive : Config :=
  { minPixelDiff := 1
    maxRecordingLengthSeconds := 1
    recordingDir := "r/"
    driveUpload := true
    deleteLocalRecordingsAfterUpload := true
    deleteRecordingsAfterSeconds := 1 }

/-- A detector state in the middle of a recording session that started at
instant 0. -/
def sRecording : DetectorState :=
  { encoding := true
    startTimeOfLastRecording := some 0
    timeOfLastMotionDetection := some 0
    sinkPath := some (cfgDrive.recordingDir ++ isoTime 0 ++ (".h264")) }

/-- The state reached from the initial state by one motion-positive
iteration under `cfgOff` at instant 0 (a session is then active). -/
def sAfterStart : DetectorState :=
  (stepFromDiff cfgOff 0 (UploadResult.ok ("")) 10 initialState).1

/-! ## Pixel arithmetic lemmas -/

/-- For any two uint8 samples, the wrapped squared difference computed by
the code equals the exact integer squared difference whenever the pixel
difference is at most 15 in absolute value (so that the square stays below
256). -/
theorem px_exact (c p : Nat) (hc : c < 256) (hp : p < 256)
    (h1 : c ≤ p + 15) (h2 : p ≤ c + 15) :
    (pxSquare (pxSubtract c p) : ℤ) = ((c : ℤ) - (p : ℤ)) ^ 2 := by
  rcases Nat.le_total p c with h | h
  · have hd : c - p ≤ 15 := by omega
    have hsub : pxSubtract c p = c - p := by
      unfold pxSubtract; omega
    have hlt : (c - p) * (c - p) < 256 :=
      lt_of_le_of_lt (Nat.mul_le_mul hd hd) (by norm_num)
    have hsq : pxSquare (c - p) = (c - p) * (c - p) := Nat.mod_eq_of_lt hlt
    rw [hsub, hsq]
    push_cast [h]
    ring
  · have hrw : ((c : ℤ) - (p : ℤ)) ^ 2 = (((p - c : ℕ)) : ℤ) ^ 2 := by
      have hv : (((p - c : ℕ)) : ℤ) = (p : ℤ) - (c : ℤ) := by push_cast [h]; ring
      rw [hv]; ring
    have hsub : pxSubtract c p = (256 - (p - c)) % 256 := by
      unfold pxSubtract; omega
    rw [hrw, hsub]
    have hd : p - c ≤ 15 := by omega
    generalize p - c = d at hd ⊢
    interval_cases d <;> decide

/-- For any d up to 256, squaring mod 256 does not distinguish d from
256 - d. -/
theorem sq_mod_wrap (d : Nat) (hd : d ≤ 256) :
    ((256 - d) * (256 - d)) % 256 = (d * d) % 256 := by
  have h : (256 - d) * (256 - d) + 512 * d = d * d + 65536 := by
    zify [hd]; ring
  generalize hA : (256 - d) * (256 - d) = A at h ⊢
  generalize hB : d * d = B at h ⊢
  omega

/-- The wrapped squared pixel difference with the larger sample first
equals the one with the smaller sample first. -/
theorem px_symm_le (c p : Nat) (h : p ≤ c) (hc : c < 256) (hp : p < 256) :
    pxSquare (pxSubtract c p) = pxSquare (pxSubtract p c) := by
  have e1 : pxSubtract c p = c - p := by unfold pxSubtract; omega
  have e2 : pxSubtract p c = (256 - (c - p)) % 256 := by unfold pxSubtract; omega
  rw [e1, e2]
  unfold pxSquare
  rcases Nat.eq_zero_or_pos (c - p) with h0 | h0
  · rw [h0]
  · have e3 : (256 - (c - p)) % 256 = 256 - (c - p) := by omega
    rw [e3]
    exact (sq_mod_wrap (c - p) (by omega)).symm

/-- The wrapped squared pixel difference is symmetric in its two uint8
samples. -/
theorem px_symm (c p : Nat) (hc : c < 256) (hp : p < 256) :
    pxSquare (pxSubtract c p) = pxSquare (pxSubtract p c) := by
  rcases Nat.le_total p c with h | h
  · exact px_symm_le c p h hc hp
  · exact (px_symm_le p c h hp hc).symm

/-- The wrapped squared difference of a sample with itself is zero. -/
theorem px_self (c : Nat) : pxSquare (pxSubtract c c) = 0 := by
  have e : pxSubtract c c = 0 := by unfold pxSubtract; omega
  rw [e]
  rfl

/-- Pointwise congruence for zipWith under a hypothesis on the zipped
pairs. -/
theorem zipWith_congr_mem {α β γ : Type} (f g : α → β → γ) (l₁ : List α) (l₂ : List β)
    (h : ∀ q ∈ List.zip l₁ l₂, f q.1 q.2 = g q.1 q.2) :
    List.zipWith f l₁ l₂ = List.zipWith g l₁ l₂ := by
  induction l₁ generalizing l₂ with
  | nil => simp
  | cons x xs ih =>
    cases l₂ with
    | nil => simp
    | cons y ys =>
      simp only [List.zipWith_cons_cons]
      refine congrArg₂ List.cons (h (x, y) (by simp)) (ih ys ?_)
      intro q hq
      exact h q (by simp [hq])

/-- On every zipped pixel pair with 8-bit values and difference at most
15, the wrapped squared differences agree with the exact integer squared
differences, elementwise. -/
theorem px_list_exact (a b : List Nat)
    (h : ∀ q ∈ List.zip a b, q.1 < 256 ∧ q.2 < 256 ∧ q.1 ≤ q.2 + 15 ∧ q.2 ≤ q.1 + 15) :
    List.map (Nat.cast : ℕ → ℤ) (List.zipWith (fun c p => pxSquare (pxSubtract c p)) a b)
      = List.zipWith (fun (c p : ℕ) => ((c : ℤ) - (p : ℤ)) ^ 2) a b := by
  induction a generalizing b with
  | nil => simp
  | cons c a ih =>
    cases b with
    | nil => simp
    | cons p b =>
      simp only [List.zipWith_cons_cons, List.map_cons]
      have hq := h (c, p) (by simp)
      refine congrArg₂ List.cons ?_ (ih b ?_)
      · exact px_exact c p hq.1 hq.2.1 hq.2.2.1 hq.2.2.2
      · intro q hq2
        exact h q (by simp [hq2])

/-- Claim C2, counterexample: the frames with single pixels 0 and 16 have
exact mean squared difference 256, but the loop computes the mean in
uint8, where np.subtract gives 240 and np.square gives 240 * 240 mod 256
= 0, so the computed motion score is 0: the subtraction and squaring are
not performed in a type wide enough to avoid modular wraparound. -/
theorem c2_wraparound_counterexample :
    mse [0] [16] = 0 ∧ mseExact [0] [16] = 256 ∧ mse [0] [16] ≠ mseExact [0] [16] := by
  refine ⟨?_, ?_, ?_⟩ <;> norm_num [mse, mseExact, pxSquare, pxSubtract]

/-- Claim C2, amended: the motion score is the mean of the squared pixel
differences computed in 8-bit modular arithmetic; it coincides with the
exact mean of the squared differences whenever every pixel pair of the
two frames consists of 8-bit samples differing by at most 15, so that no
wraparound occurs either in the subtraction or in the squaring. -/
theorem c2_mse_exact_on_small_differences (a b : Frame)
    (h : ∀ q ∈ List.zip a b, q.1 < 256 ∧ q.2 < 256 ∧ q.1 ≤ q.2 + 15 ∧ q.2 ≤ q.1 + 15) :
    mse a b = mseExact a b := by
  unfold mse mseExact
  have hnum : ((List.zipWith (fun c p => pxSquare (pxSubtract c p)) a b).sum : ℤ)
      = (List.zipWith (fun (c p : ℕ) => ((c : ℤ) - (p : ℤ)) ^ 2) a b).sum := by
    rw [Nat.cast_list_sum, px_list_exact a b h]
  have hq : ((List.zipWith (fun c p => pxSquare (pxSubtract c p)) a b).sum : ℚ)
      = (((List.zipWith (fun (c p : ℕ) => ((c : ℤ) - (p : ℤ)) ^ 2) a b).sum : ℤ) : ℚ) := by
    rw [← hnum, Int.cast_natCast]
  rw [hq]

/-- Claim C2, witness for the amended statement: two concrete frames with
all pixel differences at most 15, on which the code score and the exact
mean squared difference agree. -/
theorem c2_mse_exact_on_small_differences_witness :
    mse [3, 20] [10, 5] = mseExact [3, 20] [10, 5] :=
  c2_mse_exact_on_small_differences [3, 20] [10, 5] (by decide)

/-- Claim C5: for 8-bit frames the computed motion score is symmetric in
the two frames, and zero when both frames are identical. -/
theorem c5_mse_symmetric_and_zero_on_equal (a b : Frame)
    (ha : ∀ x ∈ a, x < 256) (hb : ∀ x ∈ b, x < 256) :
    mse a b = mse b a ∧ mse a a = 0 := by
  constructor
  · unfold mse
    rw [List.zipWith_comm (fun c p => pxSquare (pxSubtract c p)) a b]
    have hcong : List.zipWith (fun x y => pxSquare (pxSubtract y x)) b a
        = List.zipWith (fun x y => pxSquare (pxSubtract x y)) b a := by
      apply zipWith_congr_mem
      intro q hq
      have hm := List.of_mem_zip hq
      exact px_symm q.2 q.1 (ha q.2 hm.2) (hb q.1 hm.1)
    rw [hcong, Nat.min_comm]
  · unfold mse
    have hz : List.zipWith (fun c p => pxSquare (pxSubtract c p)) a a
        = List.map (fun _ => (0 : ℕ)) a := by
      rw [List.zipWith_same]
      exact List.map_congr_left fun x _ => px_self x
    rw [hz]
    simp

/-- Claim C5, witness: concrete 8-bit frames on which the score is
symmetric and the self-score is zero. -/
theorem c5_mse_symmetric_and_zero_on_equal_witness :
    mse [0, 255] [255, 0] = mse [255, 0] [0, 255] ∧ mse [0, 255] [0, 255] = 0 :=
  c5_mse_symmetric_and_zero_on_equal [0, 255] [255, 0] (by decide) (by decide)

/-! ## State machine lemmas -/

/-- The body of `__upload_file` never itself issues the hand-off command:
its possible commands are the Drive upload call, the local deletion and
the remote pruning. -/
theorem upload_file_no_handoff (cfg : Config) (now : ℚ) (up : UploadResult)
    (p n : String) : (upload_file cfg now up p n).1.filter isHandoff = [] := by
  unfold upload_file
  split_ifs with h
  · cases up
    · simp only [upload_video, delete_recording, delete_old_online_recordings]
      split_ifs <;> simp [isHandoff]
    · simp [upload_video, isHandoff]
  · simp

/-- Every finalize issues the stop command to the recording sink. -/
theorem endSink_mem_write_recording (cfg : Config) (now : ℚ) (up : UploadResult)
    (s : DetectorState) :
    Effect.endSink ∈ (write_recording_to_file cfg now up s).2.1 := by
  simp [write_recording_to_file]

/-- When the hand-off does not raise, the finalize clears the encoding
flag and the session start timestamp and leaves the rest of the state
unchanged. -/
theorem write_recording_state_of_ok (cfg : Config) (now : ℚ) (up : UploadResult)
    (s : DetectorState)
    (hok : (write_recording_to_file cfg now up s).2.2 = none) :
    (write_recording_to_file cfg now up s).1
      = { s with encoding := false, startTimeOfLastRecording := none } := by
  simp only [write_recording_to_file] at hok ⊢
  rw [if_pos hok]

/-- Finalizing preserves the session invariant. -/
theorem detectorInv_write_recording (cfg : Config) (now : ℚ) (up : UploadResult)
    (s : DetectorState) (h : DetectorInv cfg s) :
    DetectorInv cfg (write_recording_to_file cfg now up s).1 := by
  obtain ⟨h1, h2⟩ := h
  simp only [write_recording_to_file]
  split_ifs with hE
  · refine ⟨by simp, ?_⟩
    intro st hst
    simp at hst
  · exact ⟨h1, h2⟩

/-- One iteration body preserves the session invariant. -/
theorem detectorInv_step (cfg : Config) (now : ℚ) (up : UploadResult) (d : ℚ)
    (s : DetectorState) (h : DetectorInv cfg s) :
    DetectorInv cfg (stepFromDiff cfg now up d s).1 := by
  obtain ⟨h1, h2⟩ := h
  unfold stepFromDiff
  split_ifs with hA hB hC hD
  · refine ⟨by simp [start_recording], ?_⟩
    intro st hst
    simp only [start_recording] at hst ⊢
    have hst2 : now = st := by
      simpa using hst
    subst hst2
    simp [get_recording_file_path]
  · exact ⟨h1, fun st hst => h2 st hst⟩
  · exact detectorInv_write_recording cfg now up s ⟨h1, h2⟩
  · exact detectorInv_write_recording cfg now up s ⟨h1, h2⟩
  · exact ⟨h1, h2⟩

/-- Every reachable detector state satisfies the session invariant. -/
theorem detectorInv_reachable (cfg : Config) (s : DetectorState)
    (h : Reachable cfg s) : DetectorInv cfg s := by
  induction h with
  | init =>
      refine ⟨rfl, ?_⟩
      intro st hst
      simp [initialState] at hst
  | step s now up d hs hok ih => exact detectorInv_step cfg now up d s ih

/-- Claim C7: in every reachable detector state the encoding flag is true
exactly when the session start timestamp is set; and from a state with no
active session the iteration body never issues the sink stop command, so
no finalize can fire while idle. -/
theorem c7_encoding_iff_session_active (cfg : Config) (s : DetectorState)
    (now : ℚ) (up : UploadResult) (d : ℚ) (h : Reachable cfg s) :
    s.encoding = s.startTimeOfLastRecording.isSome ∧
    (s.encoding = false → Effect.endSink ∉ (stepFromDiff cfg now up d s).2.1) := by
  have hinv := detectorInv_reachable cfg s h
  refine ⟨hinv.1, ?_⟩
  intro henc
  have hstart : s.startTimeOfLastRecording = none := by
    cases hs : s.startTimeOfLastRecording with
    | none => rfl
    | some t =>
        have := hinv.1
        rw [henc, hs] at this
        simp at this
  have hmax : is_max_recording_length_exceeded cfg now s = false := by
    unfold is_max_recording_length_exceeded
    rw [hstart]
    simp
  have hidle : is_max_time_since_last_motion_detection_exceeded now s = false := by
    unfold is_max_time_since_last_motion_detection_exceeded
    rw [henc]
    simp
  unfold stepFromDiff
  split_ifs with hA hB hC
  · simp [start_recording]
  · exact absurd hB (by simp [hmax])
  · exact absurd hC (by simp [hidle])
  · simp

/-- Claim C3: whenever a session is active, the cap is positive and at
least that many seconds have passed since the session start, the
iteration body finalizes the session regardless of the value of the
motion score: the encoding flag and the start timestamp are cleared, the
last-motion timestamp is not refreshed, and the sink stop command is
issued. -/
theorem c3_max_length_priority (cfg : Config) (now : ℚ) (up : UploadResult)
    (d : ℚ) (s : DetectorState) (st : ℚ)
    (hstart : s.startTimeOfLastRecording = some st)
    (hpos : 0 < cfg.maxRecordingLengthSeconds)
    (hlen : (cfg.maxRecordingLengthSeconds : ℚ) ≤ now - st)
    (hok : (stepFromDiff cfg now up d s).2.2 = none) :
    (stepFromDiff cfg now up d s).1.encoding = false ∧
    (stepFromDiff cfg now up d s).1.startTimeOfLastRecording = none ∧
    (stepFromDiff cfg now up d s).1.timeOfLastMotionDetection
      = s.timeOfLastMotionDetection ∧
    Effect.endSink ∈ (stepFromDiff cfg now up d s).2.1 := by
  have hmax : is_max_recording_length_exceeded cfg now s = true := by
    unfold is_max_recording_length_exceeded
    rw [hstart]
    simp [hpos, hlen]
  have hA : ¬ (cfg.minPixelDiff < d ∧ is_max_recording_length_exceeded cfg now s = false) := by
    simp [hmax]
  rw [stepFromDiff, if_neg hA, if_pos hmax] at hok ⊢
  have hstate := write_recording_state_of_ok cfg now up s hok
  rw [hstate]
  exact ⟨rfl, rfl, rfl, endSink_mem_write_recording cfg now up s⟩

/-- Claim C4: while a session is active and the max-length cap has not
fired, a below-threshold frame finalizes the session exactly when
strictly more than 5 seconds have passed since the last motion-positive
frame; in particular no finalize occurs at exactly 5 elapsed seconds. -/
theorem c4_idle_timeout_strict (cfg : Config) (now : ℚ) (up : UploadResult)
    (d : ℚ) (s : DetectorState) (lm : ℚ)
    (henc : s.encoding = true)
    (hlm : s.timeOfLastMotionDetection = some lm)
    (hmax : is_max_recording_length_exceeded cfg now s = false)
    (hd : d ≤ cfg.minPixelDiff) :
    (Effect.endSink ∈ (stepFromDiff cfg now up d s).2.1
      ↔ maxTimeSinceLastMotionSeconds < now - lm) ∧
    ((stepFromDiff cfg now up d s).2.2 = none →
      ((stepFromDiff cfg now up d s).1.encoding = false
        ↔ maxTimeSinceLastMotionSeconds < now - lm)) := by
  have hA : ¬ (cfg.minPixelDiff < d ∧ is_max_recording_length_exceeded cfg now s = false) := by
    rintro ⟨h1, -⟩
    exact absurd h1 (not_lt.2 hd)
  have hCn : ¬ (is_max_recording_length_exceeded cfg now s = true) := by
    simp [hmax]
  by_cases hidle : maxTimeSinceLastMotionSeconds < now - lm
  · have hidleB : is_max_time_since_last_motion_detection_exceeded now s = true := by
      unfold is_max_time_since_last_motion_detection_exceeded
      rw [henc, hlm]
      simp [hidle]
    rw [stepFromDiff, if_neg hA, if_neg hCn, if_pos hidleB]
    constructor
    · simp [hidle, endSink_mem_write_recording cfg now up s]
    · intro hok
      rw [write_recording_state_of_ok cfg now up s hok]
      simp [hidle]
  · have hidleB : ¬ (is_max_time_since_last_motion_detection_exceeded now s = true) := by
      unfold is_max_time_since_last_motion_detection_exceeded
      rw [henc, hlm]
      simp [hidle]
    rw [stepFromDiff, if_neg hA, if_neg hCn, if_neg hidleB]
    constructor
    · simp [hidle]
    · intro _
      simp [henc, hidle]

/-- Claim C6: from any reachable state with an active session started at
st, a finalize in this iteration issues the upload hand-off exactly once,
with the file path derived from the session start timestamp
(recording_dir + ISO start + ".h264") and the file name derived as that
path's base name; when no finalize happens, no hand-off is issued at all.
Moreover the recording sink is currently writing to that very path, which
was derived from the same start timestamp at session creation. -/
theorem c6_handoff_once_per_finalize (cfg : Config) (s : DetectorState)
    (now : ℚ) (up : UploadResult) (d : ℚ) (st : ℚ)
    (hreach : Reachable cfg s)
    (hst : s.startTimeOfLastRecording = some st) :
    (stepFromDiff cfg now up d s).2.1.filter isHandoff =
      (if Effect.endSink ∈ (stepFromDiff cfg now up d s).2.1 then
        [Effect.handoff (cfg.recordingDir ++ isoTime st ++ (".h264"))
          (baseName (cfg.recordingDir ++ isoTime st ++ (".h264")))]
      else []) ∧
    s.sinkPath = some (cfg.recordingDir ++ isoTime st ++ (".h264")) := by
  have hinv := detectorInv_reachable cfg s hreach
  have hsink := hinv.2 st hst
  have henc : s.encoding = true := by
    rw [hinv.1, hst]
    rfl
  have hpath : get_recording_file_path cfg s
      = cfg.recordingDir ++ isoTime st ++ (".h264") := by
    unfold get_recording_file_path
    rw [hst]
    rfl
  refine ⟨?_, hsink⟩
  have hwr : ∀ upr : UploadResult,
      (write_recording_to_file cfg now upr s).2.1.filter isHandoff
        = [Effect.handoff (cfg.recordingDir ++ isoTime st ++ (".h264"))
            (baseName (cfg.recordingDir ++ isoTime st ++ (".h264")))] := by
    intro upr
    simp only [write_recording_to_file, hpath]
    simp [isHandoff, List.filter_cons, upload_file_no_handoff]
  by_cases hA : (cfg.minPixelDiff < d ∧ is_max_recording_length_exceeded cfg now s = false)
  · have hBn : ¬ (s.encoding = false) := by simp [henc]
    rw [stepFromDiff, if_pos hA, if_neg hBn]
    simp
  · by_cases hC : is_max_recording_length_exceeded cfg now s = true
    · rw [stepFromDiff, if_neg hA, if_pos hC, hwr up,
        if_pos (endSink_mem_write_recording cfg now up s)]
    · by_cases hD : is_max_time_since_last_motion_detection_exceeded now s = true
      · rw [stepFromDiff, if_neg hA, if_neg hC, if_pos hD, hwr up,
          if_pos (endSink_mem_write_recording cfg now up s)]
      · rw [stepFromDiff, if_neg hA, if_neg hC, if_neg hD]
        simp

/-- Claim C1 (code bug): with the Drive collaborator configured, let the
HTTP upload raise an HttpError during a finalize.  `upload_video` catches
the HttpError, but afterwards evaluates the id of the then-missing result,
which raises an AttributeError that propagates out of the hand-off, out of
the finalize and out of the whole loop iteration: the detection loop
crashes instead of continuing, and the encoding flag stays set.  The local
recording is indeed not deleted - but only because the crash also skips
the deletion command, even though the delete-local flag is on. -/
theorem c1_upload_error_propagates_into_loop :
    upload_video (UploadResult.httpError ("boom")) = Except.error PyExc.attributeError ∧
    (stepFromDiff cfgDrive 10 (UploadResult.httpError ("boom")) 0 sRecording).2.2
      = some PyExc.attributeError ∧
    (stepFromDiff cfgDrive 10 (UploadResult.httpError ("boom")) 0 sRecording).1.encoding
      = true ∧
    (stepFromDiff cfgDrive 10 (UploadResult.httpError ("boom")) 0 sRecording).2.1.filter
      isDeleteLocal = [] ∧
    (loopIteration cfgDrive 10 (UploadResult.httpError ("boom")) [0]
      ⟨sRecording, some [0]⟩).2.2 = some PyExc.attributeError := by
  refine ⟨rfl, ?_, ?_, ?_, ?_⟩ <;>
    norm_num [loopIteration, stepFromDiff, write_recording_to_file, upload_file,
      upload_video, is_max_recording_length_exceeded,
      is_max_time_since_last_motion_detection_exceeded, cfgDrive, sRecording,
      isDeleteLocal, delete_recording, delete_old_online_recordings,
      mse, pxSquare, pxSubtract]
  simp

/-- Claim C9: whenever an iteration of the loop completes without an
exception, the previous frame is set to the current frame at the end of
the iteration, whatever branch was taken; and on the very first iteration
(no previous frame) the frame is only stored: no command is issued, no
exception is raised and the detector state does not change. -/
theorem c9_previous_frame_always_updated (cfg : Config) (now : ℚ)
    (up : UploadResult) (cur : Frame) (ls : LoopState) :
    ((loopIteration cfg now up cur ls).2.2 = none →
      (loopIteration cfg now up cur ls).1.previousFrame = some cur) ∧
    (ls.previousFrame = none →
      loopIteration cfg now up cur ls = (⟨ls.det, some cur⟩, [], none)) := by
  constructor
  · intro hok
    simp only [loopIteration] at hok ⊢
    cases hprev : ls.previousFrame with
    | none => simp [hprev]
    | some prev =>
        simp only [hprev] at hok ⊢
        cases hE : (stepFromDiff cfg now up (mse cur prev) ls.det).2.2 with
        | none => simp [hE]
        | some e => simp [hE] at hok
  · intro hprev
    simp [loopIteration, hprev]

/-- Claim C9, witness: the very first iteration from the initial state on
a concrete frame stores the frame and does nothing else, and a completed
iteration indeed ends with the previous frame set to the current frame. -/
theorem c9_previous_frame_always_updated_witness :
    (loopIteration cfgOff 0 (UploadResult.ok ("")) [0] ⟨initialState, none⟩).2.2 = none ∧
    (loopIteration cfgOff 0 (UploadResult.ok ("")) [0]
      ⟨initialState, none⟩).1.previousFrame = some [0] ∧
    loopIteration cfgOff 0 (UploadResult.ok ("")) [0] ⟨initialState, none⟩
      = (⟨initialState, some [0]⟩, [], none) :=
  ⟨rfl,
   (c9_previous_frame_always_updated cfgOff 0 (UploadResult.ok ("")) [0]
      ⟨initialState, none⟩).1 rfl,
   (c9_previous_frame_always_updated cfgOff 0 (UploadResult.ok ("")) [0]
      ⟨initialState, none⟩).2 rfl⟩

/-- Claim C10: a finalize with no Drive collaborator configured issues no
upload, no local deletion and no remote pruning - the finished local file
stays in place; and even with the collaborator configured, the local
deletion command requires the delete-local flag and the remote pruning
command requires a positive retention setting. -/
theorem c10_upload_collaborator_gating (cfg : Config) (now : ℚ)
    (up : UploadResult) (path name : String) :
    (cfg.driveUpload = false → upload_file cfg now up path name = ([], none)) ∧
    (cfg.deleteLocalRecordingsAfterUpload = false →
      Effect.deleteLocal path ∉ (upload_file cfg now up path name).1) ∧
    (cfg.deleteRecordingsAfterSeconds ≤ 0 →
      (upload_file cfg now up path name).1.filter isPruneRemote = []) := by
  refine ⟨?_, ?_, ?_⟩
  · intro h
    simp [upload_file, h]
  · intro h
    unfold upload_file
    split_ifs with hdu
    · cases up
      · simp only [upload_video, delete_recording, delete_old_online_recordings, h]
        split_ifs <;> simp_all
      · simp [upload_video]
    · simp
  · intro h
    have hn : ¬ (0 < cfg.deleteRecordingsAfterSeconds) := not_lt.2 h
    unfold upload_file
    split_ifs with hdu
    · cases up
      · simp only [upload_video, delete_recording, delete_old_online_recordings, hn]
        split_ifs <;> simp_all [isPruneRemote]
      · simp [upload_video, isPruneRemote]
    · simp

/-- Claim C8, counterexample: two remote files "a" and "b", both older
than the cutoff; deleting "a" raises.  The deletion loop has no per-file
handler, so the exception aborts it before "b" is even evaluated - even
though deleting "b" would have succeeded, as the failure-free run shows.
A failure deleting one file therefore does prevent the remaining files
from being evaluated and deleted. -/
theorem c8_delete_failure_aborts_rest :
    delete_all_videos_older_than 1 [⟨("a"), 0⟩, ⟨("b"), 0⟩] (fun i => i == ("a"))
      = ([], some PyExc.httpError) ∧
    (("b") ∉ (delete_all_videos_older_than 1 [⟨("a"), 0⟩, ⟨("b"), 0⟩]
      (fun i => i == ("a"))).1) ∧
    delete_all_videos_older_than 1 [⟨("a"), 0⟩, ⟨("b"), 0⟩] (fun _ => false)
      = ([("a"), ("b")], none) := by
  refine ⟨?_, ?_, ?_⟩ <;> decide

/-- Claim C8, amended: the remote files are evaluated in listing order
and each file older than the cutoff is deleted until the first failing
delete; that failure raises immediately, so the failing file and every
file after it in the listing are not evaluated or deleted, while the old
files before it have already been deleted. -/
theorem c8_deletes_in_order_until_first_failure (cutoff : ℚ)
    (pre : List RemoteFile) (f : RemoteFile) (post : List RemoteFile)
    (deleteFails : String → Bool)
    (hpre : ∀ g ∈ pre, g.creation ≤ cutoff → deleteFails g.fileId = false)
    (hfOld : f.creation ≤ cutoff) (hf : deleteFails f.fileId = true) :
    delete_all_videos_older_than cutoff (pre ++ f :: post) deleteFails
      = ((pre.filter (fun g => decide (g.creation ≤ cutoff))).map
          (fun g => g.fileId), some PyExc.httpError) := by
  induction pre with
  | nil =>
      simp [delete_all_videos_older_than, hfOld, hf]
  | cons g pre ih =>
      have ihres := ih (fun x hx hold => hpre x (by simp [hx]) hold)
      by_cases hg : g.creation ≤ cutoff
      · have hgf : deleteFails g.fileId = false := hpre g (by simp) hg
        simp [delete_all_videos_older_than, hg, hgf, List.filter_cons, ihres]
      · simp [delete_all_videos_older_than, hg, List.filter_cons, ihres]

/-- Claim C8, witness for the amended statement: with cutoff 1, old file
"x" before the failing file "a", new file "y" skipped by the cutoff, and
old file "b" after it, exactly "x" is deleted and the HttpError escapes. -/
theorem c8_deletes_in_order_until_first_failure_witness :
    (0 : ℚ) ≤ 1 ∧ ((fun i => i == ("a")) ("a")) = true ∧
    delete_all_videos_older_than 1
        [⟨("x"), 0⟩, ⟨("y"), 5⟩, ⟨("a"), 0⟩, ⟨("b"), 0⟩] (fun i => i == ("a"))
      = ([("x")], some PyExc.httpError) :=
  ⟨by decide, by decide,
   c8_deletes_in_order_until_first_failure 1 [⟨("x"), 0⟩, ⟨("y"), 5⟩] ⟨("a"), 0⟩
     [⟨("b"), 0⟩] (fun i => i == ("a")) (by decide) (by decide) (by decide)⟩

/-- Claim C3, witness: under a one second cap, a session started at 0,
checked at instant 2 with a strongly motion-positive frame (score 100),
is finalized: the flag and start timestamp are cleared, the last-motion
timestamp is untouched and the sink stop command is issued. -/
theorem c3_max_length_priority_witness :
    (0 : ℤ) < cfgCap.maxRecordingLengthSeconds ∧
    ((cfgCap.maxRecordingLengthSeconds : ℚ) ≤ 2 - 0) ∧
    cfgCap.minPixelDiff < 100 ∧
    (stepFromDiff cfgCap 2 (UploadResult.ok ("")) 100 sRecording).1.encoding = false ∧
    (stepFromDiff cfgCap 2 (UploadResult.ok ("")) 100 sRecording).1.startTimeOfLastRecording
      = none ∧
    (stepFromDiff cfgCap 2 (UploadResult.ok ("")) 100 sRecording).1.timeOfLastMotionDetection
      = sRecording.timeOfLastMotionDetection ∧
    Effect.endSink ∈ (stepFromDiff cfgCap 2 (UploadResult.ok ("")) 100 sRecording).2.1 := by
  have h := c3_max_length_priority cfgCap 2 (UploadResult.ok ("")) 100 sRecording 0 rfl
    (by decide) (by norm_num [cfgCap])
    (by norm_num [stepFromDiff, write_recording_to_file, upload_file, upload_video,
      is_max_recording_length_exceeded, cfgCap, sRecording])
  exact ⟨by decide, by norm_num [cfgCap], by norm_num [cfgCap], h.1, h.2.1, h.2.2.1, h.2.2.2⟩

/-- Claim C4, witness: with no cap, a below-threshold frame at instant 6
finalizes a session whose last motion was at 0 (elapsed 6 > 5), and the
finalize is visible both as the sink stop command and as the cleared
encoding flag. -/
theorem c4_idle_timeout_strict_witness :
    sRecording.encoding = true ∧
    sRecording.timeOfLastMotionDetection = some 0 ∧
    is_max_recording_length_exceeded cfgOff 6 sRecording = false ∧
    (0 : ℚ) ≤ cfgOff.minPixelDiff ∧
    Effect.endSink ∈ (stepFromDiff cfgOff 6 (UploadResult.ok ("")) 0 sRecording).2.1 ∧
    (stepFromDiff cfgOff 6 (UploadResult.ok ("")) 0 sRecording).1.encoding = false := by
  have h := c4_idle_timeout_strict cfgOff 6 (UploadResult.ok ("")) 0 sRecording 0 rfl rfl
    rfl (by norm_num [cfgOff])
  have hgt : maxTimeSinceLastMotionSeconds < (6 : ℚ) - 0 := by
    norm_num [maxTimeSinceLastMotionSeconds]
  refine ⟨rfl, rfl, rfl, by norm_num [cfgOff], h.1.mpr hgt, ?_⟩
  refine (h.2 ?_).mpr hgt
  norm_num [stepFromDiff, write_recording_to_file, upload_file, upload_video,
    is_max_recording_length_exceeded, is_max_time_since_last_motion_detection_exceeded,
    maxTimeSinceLastMotionSeconds, cfgOff, sRecording]

/-- Claim C6, witness: after one motion-positive iteration from the
initial state a session started at 0 is active; at instant 5 (elapsed
idle time exactly 5, so no finalize) the iteration issues no hand-off,
and the sink is writing to the path derived from the start timestamp. -/
theorem c6_handoff_once_per_finalize_witness :
    sAfterStart.startTimeOfLastRecording = some 0 ∧
    (stepFromDiff cfgOff 5 (UploadResult.ok ("")) 0 sAfterStart).2.1.filter isHandoff =
      (if Effect.endSink ∈ (stepFromDiff cfgOff 5 (UploadResult.ok ("")) 0 sAfterStart).2.1 then
        [Effect.handoff (cfgOff.recordingDir ++ isoTime 0 ++ (".h264"))
          (baseName (cfgOff.recordingDir ++ isoTime 0 ++ (".h264")))]
      else []) ∧
    sAfterStart.sinkPath = some (cfgOff.recordingDir ++ isoTime 0 ++ (".h264")) := by
  have h := c6_handoff_once_per_finalize cfgOff sAfterStart 5 (UploadResult.ok ("")) 0 0
    (Reachable.step initialState 0 (UploadResult.ok ("")) 10 Reachable.init rfl) rfl
  exact ⟨rfl, h.1, h.2⟩

/-- Claim C7, witness: the freshly initialized state (reachable by
construction) has the flag and the start timestamp consistently unset,
and an iteration from it issues no sink stop command. -/
theorem c7_encoding_iff_session_active_witness :
    initialState.encoding = initialState.startTimeOfLastRecording.isSome ∧
    Effect.endSink ∉ (stepFromDiff cfgOff 0 (UploadResult.ok ("")) 0 initialState).2.1 :=
  ⟨(c7_encoding_iff_session_active cfgOff initialState 0 (UploadResult.ok ("")) 0
      Reachable.init).1,
   (c7_encoding_iff_session_active cfgOff initialState 0 (UploadResult.ok ("")) 0
      Reachable.init).2 rfl⟩

/-- Claim C10, witness: with every optional collaborator disabled, a
finalize hand-off issues no command at all - no upload, no local
deletion, no remote pruning. -/
theorem c10_upload_collaborator_gating_witness :
    cfgOff.driveUpload = false ∧
    upload_file cfgOff 0 (UploadResult.ok ("")) ("p") ("n") = ([], none) ∧
    cfgOff.deleteLocalRecordingsAfterUpload = false ∧
    Effect.deleteLocal ("p") ∉ (upload_file cfgOff 0 (UploadResult.ok ("")) ("p") ("n")).1 ∧
    cfgOff.deleteRecordingsAfterSeconds ≤ 0 ∧
    (upload_file cfgOff 0 (UploadResult.ok ("")) ("p") ("n")).1.filter isPruneRemote = [] :=
  ⟨rfl,
   (c10_upload_collaborator_gating cfgOff 0 (UploadResult.ok ("")) ("p") ("n")).1 rfl,
   rfl,
   (c10_upload_collaborator_gating cfgOff 0 (UploadResult.ok ("")) ("p") ("n")).2.1 rfl,
   by decide,
   (c10_upload_collaborator_gating cfgOff 0 (UploadResult.ok ("")) ("p") ("n")).2.2 (by decide)⟩
